import Mathlib

/-!
Shallow embedding of the resource-access pipeline of the Bootcamp-TS-APIs
repository: the bootcamp controller (`src/controllers/bootcamp.controller.ts`),
the course controller, the course schema and the routers. MongoDB ObjectIds are
modelled as `String`, the document store as in-memory lists, and each Express
handler as a function from its request data and the store to the list of
emitted effects (calls to `next(error)` and `res.json(...)`) together with the
resulting store. A `next(...)` call that the source does not `return` from is
modelled by appending the effect and continuing, exactly as the JS runtime does.
-/

/-- An authenticated principal (`req.user`), resolved by the auth middleware. -/
structure Principal where
  id : String
  role : String
deriving DecidableEq, Repr

/-- A bootcamp document: `_id`, owner reference `user`, and the `photo` field. -/
structure BootcampDoc where
  id : String
  user : String
  photo : Option String
deriving DecidableEq, Repr

/-- A course document: `_id`, owner reference `user`, bootcamp reference. -/
structure CourseDoc where
  id : String
  user : String
  bootcamp : String
deriving DecidableEq, Repr

/-- The document store: the bootcamp and course collections. -/
structure Store where
  bootcamps : List BootcampDoc
  courses : List CourseDoc
deriving DecidableEq, Repr

/-- `Bootcamp.findById`: first document whose `_id` matches. -/
def Store.findBootcamp (s : Store) (i : String) : Option BootcampDoc :=
  s.bootcamps.find? (fun b => b.id = i)

/-- `Course.findById`: first document whose `_id` matches. -/
def Store.findCourse (s : Store) (i : String) : Option CourseDoc :=
  s.courses.find? (fun c => c.id = i)

/-- `Bootcamp.findOne({ user: uid })`: first document owned by `uid`. -/
def Store.findBootcampByUser (s : Store) (uid : String) : Option BootcampDoc :=
  s.bootcamps.find? (fun b => b.user = uid)

/-- `Bootcamp.findByIdAndUpdate(i, body)` with the body modelled as a document
transformer `upd`; every matching document is rewritten (ids are unique in a
Mongo collection, so at most one is). -/
def Store.updateBootcampDoc (s : Store) (i : String) (upd : BootcampDoc → BootcampDoc) :
    Store :=
  { s with bootcamps := s.bootcamps.map (fun b => if b.id = i then upd b else b) }

/-- `Course.findByIdAndUpdate(i, body)`, as for bootcamps. -/
def Store.updateCourseDoc (s : Store) (i : String) (upd : CourseDoc → CourseDoc) :
    Store :=
  { s with courses := s.courses.map (fun c => if c.id = i then upd c else c) }

/-- `bootcamp.remove()`: drop the document from the collection. -/
def Store.removeBootcamp (s : Store) (i : String) : Store :=
  { s with bootcamps := s.bootcamps.filter (fun b => ¬ b.id = i) }

/-- `course.remove()`: drop the document from the collection. -/
def Store.removeCourse (s : Store) (i : String) : Store :=
  { s with courses := s.courses.filter (fun c => ¬ c.id = i) }

/-- `Bootcamp.create(body)`: append the new document. -/
def Store.createBootcamp (s : Store) (b : BootcampDoc) : Store :=
  { s with bootcamps := s.bootcamps ++ [b] }

/-- `Course.create(body)`: append the new document. -/
def Store.createCourse (s : Store) (c : CourseDoc) : Store :=
  { s with courses := s.courses ++ [c] }

/-- JS template interpolation of a possibly-undefined value:
`` `${x}` `` prints the string `"undefined"` when `x` is `undefined`. -/
def jsTpl : Option String → String
  | some s => s
  | none => "undefined"

/-- Response payloads sent through `res.json`. -/
inductive RespData where
  | bootcamp (b : BootcampDoc)
  | courseOpt (c : Option CourseDoc)
  | course (c : CourseDoc)
  | name (s : String)
  | bootcampList (count : Nat) (bs : List BootcampDoc)
  | emptyData
deriving DecidableEq, Repr

/-- Observable effects of a handler: error objects passed to `next(...)` and
successful `res.status(...).json(...)` responses. -/
inductive Eff where
  | notFound (i : Option String)
  | badRequest (msg : Option String)
  | invalidCredential (msg : String)
  | serverError (msg : String)
  | ok (status : Nat) (data : RespData)
deriving DecidableEq, Repr

/-- `updateBootcamp` (PUT /api/v1/bootcamps/:id). Fetch by id; 404 when
absent (with `return`); deny unless owner or admin (with `return`); otherwise
`findByIdAndUpdate` and respond 200 with the updated document. -/
def updateBootcamp (rid : String) (u : Principal) (upd : BootcampDoc → BootcampDoc)
    (s : Store) : List Eff × Store :=
  match s.findBootcamp rid with
  | none => ([.notFound (some rid)], s)
  | some b =>
    if b.user ≠ u.id ∧ u.role ≠ "admin" then
      ([.invalidCredential
          ("User " ++ rid ++ " is not authorized to upadte this bootcamp")], s)
    else
      ([.ok 200 (.bootcamp (upd b))], s.updateBootcampDoc rid upd)

/-- `deleteBootcamp` (DELETE /api/v1/bootcamps/:id). Same fetch/404/ownership
gate as update; on success `bootcamp.remove()` and respond 200. -/
def deleteBootcamp (rid : String) (u : Principal) (s : Store) : List Eff × Store :=
  match s.findBootcamp rid with
  | none => ([.notFound (some rid)], s)
  | some b =>
    if b.user ≠ u.id ∧ u.role ≠ "admin" then
      ([.invalidCredential
          ("User " ++ rid ++ " is not authorized to delete this bootcamp")], s)
    else
      ([.ok 200 .emptyData], s.removeBootcamp rid)

/-- `createBootcamp` (POST /api/v1/bootcamps). `req.body.user` is overwritten
with the principal's id; a non-admin who already owns a published bootcamp is
rejected with a BadRequest; otherwise the document is created (201). `body`
carries the rest of the request body, its owner field being overwritten. -/
def createBootcamp (u : Principal) (body : BootcampDoc) (s : Store) :
    List Eff × Store :=
  let doc := { body with user := u.id }
  match s.findBootcampByUser u.id with
  | some _ =>
    if u.role ≠ "admin" then
      ([.badRequest (some ("The uuser with ID " ++ u.id ++
        " has already published a bootcamp"))], s)
    else
      ([.ok 201 (.bootcamp doc)], s.createBootcamp doc)
  | none =>
      ([.ok 201 (.bootcamp doc)], s.createBootcamp doc)

/-- The uploaded file (`req.files.file` from express-fileupload). -/
structure UploadedFile where
  name : String
  mimetype : String
  size : Nat
deriving DecidableEq, Repr

/-- Index of the last `'.'` in a character list, if any. -/
def lastDotIdx (cs : List Char) : Option Nat :=
  match cs.reverse.findIdx? (fun c => c = '.') with
  | none => none
  | some j => some (cs.length - 1 - j)

/-- `path.parse(name).ext` for a basename: the suffix starting at the last
`'.'`, including the dot; empty when there is no dot or when the only dot is
the leading character of a dotfile. -/
def extOf (name : String) : String :=
  match lastDotIdx name.toList with
  | none => ""
  | some 0 => ""
  | some i => String.mk (name.toList.drop i)

/-- JS `String.prototype.startsWith`: `p` is a prefix of `s`. -/
def strStartsWith (s p : String) : Bool :=
  p.toList.isPrefixOf s.toList

/-- The outcome of the upload-validation section of `bootcampPhotoUpload`
(lines 251-269): each rejection branch, or acceptance of the file. -/
inductive UploadCheck where
  | rejectNoFile
  | rejectNotImage
  | rejectTooLarge
  | accept (f : UploadedFile)
deriving DecidableEq, Repr

/-- The validation section of `bootcampPhotoUpload`: reject when `req.files`
is absent, when the mimetype does not start with `"image"`, or when the size
exceeds the configured maximum; otherwise accept. -/
def checkUpload (files : Option UploadedFile) (maxSize : Nat) : UploadCheck :=
  match files with
  | none => .rejectNoFile
  | some f =>
    if ¬ strStartsWith f.mimetype "image" then .rejectNotImage
    else if f.size > maxSize then .rejectTooLarge
    else .accept f

/-- The part of `bootcampPhotoUpload` after the ownership gate (lines
251-286): the upload checks; on acceptance the file is renamed to
`photo_<_id><ext>` and moved (`mvOk` models the callback of `file.mv`
reporting no error), after which the document's `photo` field is set to the
new name and a 200 carries the name. -/
def photoUploadChecked (rid : String) (b : BootcampDoc) (files : Option UploadedFile)
    (maxSize : Nat) (mvOk : Bool) (s : Store) : List Eff × Store :=
  match checkUpload files maxSize with
  | .rejectNoFile => ([.badRequest (some "Please upload a file")], s)
  | .rejectNotImage => ([.badRequest (some "Please upload an image file")], s)
  | .rejectTooLarge =>
      ([.badRequest (some ("Please upload an image size less than " ++
        toString maxSize))], s)
  | .accept f =>
      let newName := "photo_" ++ b.id ++ extOf f.name
      if mvOk then
        ([.ok 200 (.name newName)],
          s.updateBootcampDoc rid (fun d => { d with photo := some newName }))
      else
        ([.serverError "Problem with file upload"], s)

/-- `bootcampPhotoUpload` (PUT /api/v1/bootcamps/:id/photo). Fetch/404 and
ownership gate as for update; then the checks and the move/update,
`photoUploadChecked`. -/
def bootcampPhotoUpload (rid : String) (u : Principal) (files : Option UploadedFile)
    (maxSize : Nat) (mvOk : Bool) (s : Store) : List Eff × Store :=
  match s.findBootcamp rid with
  | none => ([.notFound (some rid)], s)
  | some b =>
    if b.user ≠ u.id ∧ u.role ≠ "admin" then
      ([.invalidCredential
          ("User " ++ rid ++ " is not authorized to upadte this bootcamp")], s)
    else
      photoUploadChecked rid b files maxSize mvOk s

/-- A WGS84 coordinate pair returned by the geocoder. -/
structure GeoPoint where
  latitude : ℚ
  longitude : ℚ
deriving DecidableEq, Repr

/-- The spherical-cap region handed to `$geoWithin`/`$centerSphere`: the
center and the angular radius, `none` standing for JS `NaN`. -/
structure Region where
  lng : ℚ
  lat : ℚ
  radius : Option ℚ
deriving DecidableEq, Repr

/-- JS `parseInt` on a decimal string: skip leading whitespace, read an
optional sign and then decimal digits; `none` models `NaN` (no digits). -/
def jsParseInt (str : String) : Option Int :=
  let cs := str.toList.dropWhile (fun c => c = ' ' ∨ c = '\t' ∨ c = '\n' ∨ c = '\r')
  let signAndRest : Int × List Char :=
    match cs with
    | '-' :: rest => (-1, rest)
    | '+' :: rest => (1, rest)
    | _ => (1, cs)
  let digits := signAndRest.2.takeWhile Char.isDigit
  if digits.isEmpty then none
  else some (signAndRest.1 *
    (digits.foldl (fun acc c => 10 * acc + (c.toNat - '0'.toNat)) 0 : Nat))

/-- `parseInt(distance) / 3963` — the angular radius; dividing `NaN` leaves
`NaN`. -/
def radiusOf (distance : String) : Option ℚ :=
  (jsParseInt distance).map (fun n => (n : ℚ) / 3963)

/-- `getBootcampsInRadius` (GET /api/v1/bootcamps/radius/:zipcode/:distance).
The geocoder is an external collaborator: `loc` is its (first) result, `none`
when the call failed or returned nothing, in which case the `catch` turns the
thrown access into a BadRequest. Otherwise the radius is computed from the
distance parameter with no validation and the store is queried with the
region; `geoFind` models the store's geospatial filter. The query region is
recorded alongside the response. -/
def getBootcampsInRadius (loc : Option GeoPoint)
    (geoFind : Region → List BootcampDoc) (distance : String) :
    Option Region × List Eff :=
  match loc with
  | none => (none, [.badRequest none])
  | some l =>
    let region : Region := { lng := l.longitude, lat := l.latitude,
                             radius := radiusOf distance }
    let found := geoFind region
    (some region, [.ok 200 (.bootcampList found.length found)])

/-- `getCourse` (GET /api/v1/courses/:id). `findById(...).populate(...)`; the
populate expands the referenced bootcamp inline in the payload and does not
affect control flow, so the payload keeps the document as stored. The
NotFound branch calls `next(...)` WITHOUT `return`, so the handler then also
sends a 200 whose `data` is the null course. -/
def getCourse (cid : String) (s : Store) : List Eff :=
  match s.findCourse cid with
  | none => [.notFound (some cid), .ok 200 (.courseOpt none)]
  | some c => [.ok 200 (.courseOpt (some c))]

/-- `addCourse` (POST /api/v1/bootcamps/:bootcampId/courses). The body's
`bootcamp` and `user` fields are overwritten from the route parameter and the
principal. The NotFound branch calls `next(...)` WITHOUT `return`, so the
handler continues; the ownership check reads `bootcamp?.user` (undefined when
the bootcamp is absent, hence unequal to the principal's id) and denies with
`return` unless the role is admin; otherwise `Course.create` runs. The deny
message interpolates `req.params.id`, which this route does not bind
(`paramsId = none`, printed as "undefined"), and `bootcamp?._id`. -/
def addCourse (bootcampId : String) (paramsId : Option String) (u : Principal)
    (body : CourseDoc) (s : Store) : List Eff × Store :=
  let doc := { body with bootcamp := bootcampId, user := u.id }
  let bootcamp := s.findBootcamp bootcampId
  let pre : List Eff :=
    match bootcamp with
    | none => [.notFound (some bootcampId)]
    | some _ => []
  if bootcamp.map (fun b => b.user) ≠ some u.id ∧ u.role ≠ "admin" then
    (pre ++ [.invalidCredential
        ("User " ++ jsTpl paramsId ++ " is not authorized to add a course to bootcamp "
          ++ jsTpl (bootcamp.map (fun b => b.id)))], s)
  else
    (pre ++ [.ok 200 (.course doc)], s.createCourse doc)

/-- `updateCourse` (PUT /api/v1/courses/:id). The NotFound branch calls
`next(...)` WITHOUT `return`; the ownership check reads `course?.user` and
denies with `return` unless owner or admin; otherwise `findByIdAndUpdate`
runs and the 200 carries its result (`null` when the course is absent). -/
def updateCourse (cid : String) (u : Principal) (upd : CourseDoc → CourseDoc)
    (s : Store) : List Eff × Store :=
  let course := s.findCourse cid
  let pre : List Eff :=
    match course with
    | none => [.notFound (some cid)]
    | some _ => []
  if course.map (fun c => c.user) ≠ some u.id ∧ u.role ≠ "admin" then
    (pre ++ [.invalidCredential
        ("User " ++ cid ++ " is not authorized to update course "
          ++ jsTpl (course.map (fun c => c.id)))], s)
  else
    (pre ++ [.ok 200 (.courseOpt (course.map upd))], s.updateCourseDoc cid upd)

/-- `deleteCourse` (DELETE /api/v1/courses/:id). Same non-returning NotFound
branch and ownership gate as `updateCourse`; on success `course?.remove()`
(a no-op when the course is absent) and a 200 with empty data. -/
def deleteCourse (cid : String) (u : Principal) (s : Store) : List Eff × Store :=
  let course := s.findCourse cid
  let pre : List Eff :=
    match course with
    | none => [.notFound (some cid)]
    | some _ => []
  if course.map (fun c => c.user) ≠ some u.id ∧ u.role ≠ "admin" then
    (pre ++ [.invalidCredential
        ("User " ++ cid ++ " is not authorized to update course "
          ++ jsTpl (course.map (fun c => c.id)))], s)
  else
    (pre ++ [.ok 200 .emptyData], s.removeCourse cid)

/-- A result page of the Pagination Executor: the items of the requested
page, their count, and the `previous`/`next` page descriptors, present only
when the adjacent page exists. -/
structure Page (α : Type) where
  items : List α
  count : Nat
  previous : Option Nat
  next : Option Nat
deriving DecidableEq, Repr

/-- Modelled from the spec: the Pagination Executor lives in the
pagination-populate middleware, which is not among the provided source files
(only its routers' uses are). Per the spec it applies the filter, then
`skip = (page-1)*limit` and `limit` against the collection, computes the
total matching count ignoring pagination, and populates `previous` iff
`page > 1` and `next` iff `page * limit < total`. -/
def executeQuery {α : Type} (page limit : Nat) (filt : α → Bool)
    (coll : List α) : Page α :=
  let matching := coll.filter filt
  let total := matching.length
  let items := (matching.drop ((page - 1) * limit)).take limit
  { items := items
    count := items.length
    previous := if 1 < page then some (page - 1) else none
    next := if page * limit < total then some (page + 1) else none }

/-- Claim C1: for every principal and every fetched resource, the mutating handlers
(update bootcamp, delete bootcamp, photo upload, add course, update course,
delete course) proceed iff the principal's role is `admin` or the resource's
owner field equals the principal's id; in every other case they emit only an
authorization denial and leave the store unchanged. -/
theorem c1_ownership_authorization
    (rid : String) (u : Principal) (upd : BootcampDoc → BootcampDoc)
    (cupd : CourseDoc → CourseDoc) (files : Option UploadedFile)
    (maxSize : Nat) (mvOk : Bool) (paramsId : Option String) (body : CourseDoc)
    (s : Store) (b : BootcampDoc) (c : CourseDoc)
    (hb : s.findBootcamp rid = some b) (hc : s.findCourse rid = some c) :
    ((¬ (u.role = "admin" ∨ b.user = u.id) →
        updateBootcamp rid u upd s =
          ([.invalidCredential
              ("User " ++ rid ++ " is not authorized to upadte this bootcamp")], s))
      ∧ ((u.role = "admin" ∨ b.user = u.id) →
        updateBootcamp rid u upd s =
          ([.ok 200 (.bootcamp (upd b))], s.updateBootcampDoc rid upd)))
    ∧ ((¬ (u.role = "admin" ∨ b.user = u.id) →
        deleteBootcamp rid u s =
          ([.invalidCredential
              ("User " ++ rid ++ " is not authorized to delete this bootcamp")], s))
      ∧ ((u.role = "admin" ∨ b.user = u.id) →
        deleteBootcamp rid u s = ([.ok 200 .emptyData], s.removeBootcamp rid)))
    ∧ ((¬ (u.role = "admin" ∨ b.user = u.id) →
        bootcampPhotoUpload rid u files maxSize mvOk s =
          ([.invalidCredential
              ("User " ++ rid ++ " is not authorized to upadte this bootcamp")], s))
      ∧ ((u.role = "admin" ∨ b.user = u.id) →
        bootcampPhotoUpload rid u files maxSize mvOk s =
          photoUploadChecked rid b files maxSize mvOk s))
    ∧ ((¬ (u.role = "admin" ∨ b.user = u.id) →
        addCourse rid paramsId u body s =
          ([.invalidCredential
              ("User " ++ jsTpl paramsId ++
                " is not authorized to add a course to bootcamp " ++ b.id)], s))
      ∧ ((u.role = "admin" ∨ b.user = u.id) →
        addCourse rid paramsId u body s =
          ([.ok 200 (.course { body with bootcamp := rid, user := u.id })],
            s.createCourse { body with bootcamp := rid, user := u.id })))
    ∧ ((¬ (u.role = "admin" ∨ c.user = u.id) →
        updateCourse rid u cupd s =
          ([.invalidCredential
              ("User " ++ rid ++ " is not authorized to update course " ++ c.id)], s))
      ∧ ((u.role = "admin" ∨ c.user = u.id) →
        updateCourse rid u cupd s =
          ([.ok 200 (.courseOpt (some (cupd c)))], s.updateCourseDoc rid cupd)))
    ∧ ((¬ (u.role = "admin" ∨ c.user = u.id) →
        deleteCourse rid u s =
          ([.invalidCredential
              ("User " ++ rid ++ " is not authorized to update course " ++ c.id)], s))
      ∧ ((u.role = "admin" ∨ c.user = u.id) →
        deleteCourse rid u s = ([.ok 200 .emptyData], s.removeCourse rid))) := by
  refine ⟨⟨?_, ?_⟩, ⟨?_, ?_⟩, ⟨?_, ?_⟩, ⟨?_, ?_⟩, ⟨?_, ?_⟩, ⟨?_, ?_⟩⟩
  · intro h
    push_neg at h
    simp [updateBootcamp, hb, h.1, h.2, Ne.symm]
  · intro h
    simp [updateBootcamp, hb]
    tauto
  · intro h
    push_neg at h
    simp [deleteBootcamp, hb, h.1, h.2, Ne.symm]
  · intro h
    simp [deleteBootcamp, hb]
    tauto
  · intro h
    push_neg at h
    simp [bootcampPhotoUpload, hb, h.1, h.2, Ne.symm]
  · intro h
    simp [bootcampPhotoUpload, hb]
    tauto
  · intro h
    push_neg at h
    simp [addCourse, hb, h.1, h.2, Ne.symm, jsTpl]
  · intro h
    simp [addCourse, hb]
    tauto
  · intro h
    push_neg at h
    simp [updateCourse, hc, h.1, h.2, Ne.symm, jsTpl]
  · intro h
    simp [updateCourse, hc]
    tauto
  · intro h
    push_neg at h
    simp [deleteCourse, hc, h.1, h.2, Ne.symm, jsTpl]
  · intro h
    simp [deleteCourse, hc]
    tauto

/-- Witness for C1: with bootcamp `B1` owned by `u1` and course `B1` owned by
`u2` in the store, a `user`-role principal `u9` who owns neither is denied on
update with the store unchanged. -/
theorem c1_ownership_authorization_witness :
    Store.findBootcamp ⟨[⟨"B1", "u1", none⟩], [⟨"B1", "u2", "B0"⟩]⟩ "B1" =
        some ⟨"B1", "u1", none⟩
    ∧ updateBootcamp "B1" ⟨"u9", "user"⟩ (fun b => b)
        ⟨[⟨"B1", "u1", none⟩], [⟨"B1", "u2", "B0"⟩]⟩ =
      ([.invalidCredential
          ("User " ++ "B1" ++ " is not authorized to upadte this bootcamp")],
        ⟨[⟨"B1", "u1", none⟩], [⟨"B1", "u2", "B0"⟩]⟩) :=
  ⟨by decide,
    (c1_ownership_authorization "B1" ⟨"u9", "user"⟩ (fun b => b) (fun c => c)
      none 0 true none ⟨"C9", "x", "y"⟩
      ⟨[⟨"B1", "u1", none⟩], [⟨"B1", "u2", "B0"⟩]⟩
      ⟨"B1", "u1", none⟩ ⟨"B1", "u2", "B0"⟩ (by decide) (by decide)).1.1 (by decide)⟩

/-- Claim C2: a non-admin principal who already owns a published bootcamp cannot
create another one (BadRequest, store unchanged); a principal owning none, or
one with role `admin`, has the bootcamp created with the owner field set to
their id. -/
theorem c2_singleton_creation (u : Principal) (body : BootcampDoc) (s : Store) :
    (((∃ b0, s.findBootcampByUser u.id = some b0) ∧ u.role ≠ "admin") →
      createBootcamp u body s =
        ([.badRequest (some ("The uuser with ID " ++ u.id ++
          " has already published a bootcamp"))], s))
    ∧ ((s.findBootcampByUser u.id = none ∨ u.role = "admin") →
      createBootcamp u body s =
        ([.ok 201 (.bootcamp { body with user := u.id })],
          s.createBootcamp { body with user := u.id })) := by
  constructor
  · rintro ⟨⟨b0, hb0⟩, hrole⟩
    simp [createBootcamp, hb0, hrole]
  · intro h
    rcases h with h | h
    · simp [createBootcamp, h]
    · cases hfind : s.findBootcampByUser u.id with
      | none => simp [createBootcamp, hfind]
      | some b0 => simp [createBootcamp, hfind, h]

/-- Witness for C2: `u1`, a `publisher` already owning `B1`, is denied a
second creation. -/
theorem c2_singleton_creation_witness :
    ((∃ b0, Store.findBootcampByUser ⟨[⟨"B1", "u1", none⟩], []⟩ "u1" = some b0)
      ∧ ("publisher" : String) ≠ "admin")
    ∧ createBootcamp ⟨"u1", "publisher"⟩ ⟨"B2", "ignored", none⟩
        ⟨[⟨"B1", "u1", none⟩], []⟩ =
      ([.badRequest (some ("The uuser with ID " ++ "u1" ++
        " has already published a bootcamp"))], ⟨[⟨"B1", "u1", none⟩], []⟩) :=
  ⟨⟨⟨⟨"B1", "u1", none⟩, by decide⟩, by decide⟩,
    (c2_singleton_creation ⟨"u1", "publisher"⟩ ⟨"B2", "ignored", none⟩
      ⟨[⟨"B1", "u1", none⟩], []⟩).1 ⟨⟨⟨"B1", "u1", none⟩, by decide⟩, by decide⟩⟩

/-- Counterexample to C3: the source checks `mimetype.startsWith('image')`,
not `'image/'`: a file whose mimetype is `"imagery"` does not begin with
`"image/"` yet is accepted by the validator. -/
theorem c3_image_prefix_counterexample :
    checkUpload (some ⟨"a.png", "imagery", 5⟩) 10 =
      .accept ⟨"a.png", "imagery", 5⟩
    ∧ strStartsWith "imagery" "image/" = false := by decide

/-- C3 (amended): the validator rejects exactly when the asset is absent,
when the mimetype does not begin with `"image"` (no slash), or when the size
strictly exceeds the maximum; `text/plain` is rejected at any size,
`image/png` at exactly the maximum is accepted, and one byte over is
rejected. -/
theorem c3_upload_validation (files : Option UploadedFile) (maxSize : Nat) :
    ((∃ f, checkUpload files maxSize = .accept f) ↔
      (∃ f, files = some f ∧ strStartsWith f.mimetype "image" = true ∧
        f.size ≤ maxSize))
    ∧ (∀ (n : String) (sz m : Nat),
        checkUpload (some ⟨n, "text/plain", sz⟩) m = .rejectNotImage)
    ∧ (∀ (n : String) (m : Nat),
        checkUpload (some ⟨n, "image/png", m⟩) m = .accept ⟨n, "image/png", m⟩)
    ∧ (∀ (n : String) (m : Nat),
        checkUpload (some ⟨n, "image/png", m + 1⟩) m = .rejectTooLarge) := by
  refine ⟨?_, ?_, ?_, ?_⟩
  · constructor
    · rintro ⟨f, hf⟩
      cases files with
      | none => simp [checkUpload] at hf
      | some g =>
        by_cases hpre : strStartsWith g.mimetype "image" = true
        · by_cases hsz : g.size ≤ maxSize
          · exact ⟨g, rfl, hpre, hsz⟩
          · push_neg at hsz
            simp [checkUpload, hpre, hsz] at hf
        · simp [checkUpload, hpre] at hf
    · rintro ⟨f, hfiles, hpre, hsz⟩
      subst hfiles
      exact ⟨f, by simp [checkUpload, hpre, Nat.not_lt.mpr hsz]⟩
  · intro n sz m
    have h : strStartsWith "text/plain" "image" = false := by decide
    simp [checkUpload, h]
  · intro n m
    have h : strStartsWith "image/png" "image" = true := by decide
    simp [checkUpload, h]
  · intro n m
    have h : strStartsWith "image/png" "image" = true := by decide
    simp [checkUpload, h]

/-- Claim C4: with a geocoded center, the angular radius handed to the geospatial
query equals the parsed distance divided by 3963 (Earth's radius in miles,
the unit the route uses). -/
theorem c4_radius_conversion (loc : GeoPoint) (geoFind : Region → List BootcampDoc)
    (d : String) (n : Int) (h : jsParseInt d = some n) :
    (getBootcampsInRadius (some loc) geoFind d).1 =
      some { lng := loc.longitude, lat := loc.latitude,
             radius := some ((n : ℚ) / 3963) } := by
  simp [getBootcampsInRadius, radiusOf, h]

/-- Witness for C4: distance `"100"` yields the angular radius `100 / 3963`. -/
theorem c4_radius_conversion_witness :
    jsParseInt "100" = some 100
    ∧ (getBootcampsInRadius (some ⟨0, 0⟩) (fun _ => []) "100").1 =
      some { lng := 0, lat := 0, radius := some (((100 : Int) : ℚ) / 3963) } :=
  ⟨by decide,
    c4_radius_conversion ⟨0, 0⟩ (fun _ => []) "100" 100 (by decide)⟩

/-- Counterexample to C5: the distance `"-100"` is not rejected — the handler
queries the store with the negative angular radius `-100 / 3963` and responds
200. -/
theorem c5_negative_distance_counterexample :
    getBootcampsInRadius (some ⟨0, 0⟩) (fun _ => []) "-100" =
      (some { lng := 0, lat := 0, radius := some (((-100 : Int) : ℚ) / 3963) },
        [.ok 200 (.bootcampList 0 [])])
    ∧ (((-100 : Int) : ℚ) / 3963 < 0) := by
  constructor
  · have h : jsParseInt "-100" = some (-100) := by decide
    simp [getBootcampsInRadius, radiusOf, h]
  · norm_num

/-- C5 (amended): `getBootcampsInRadius` performs no validation of the
distance: the radius passed to the geospatial query is the parsed distance
over 3963 even when that is negative, and the query and 200 response still
happen. -/
theorem c5_no_distance_validation (loc : GeoPoint)
    (geoFind : Region → List BootcampDoc) (d : String) (n : Int)
    (h : jsParseInt d = some n) (hn : n < 0) :
    (getBootcampsInRadius (some loc) geoFind d).1 =
      some { lng := loc.longitude, lat := loc.latitude,
             radius := some ((n : ℚ) / 3963) }
    ∧ ((n : ℚ) / 3963 < 0)
    ∧ (getBootcampsInRadius (some loc) geoFind d).2 =
      [.ok 200 (.bootcampList
        (geoFind { lng := loc.longitude, lat := loc.latitude,
                   radius := some ((n : ℚ) / 3963) }).length
        (geoFind { lng := loc.longitude, lat := loc.latitude,
                   radius := some ((n : ℚ) / 3963) }))] := by
  refine ⟨?_, ?_, ?_⟩
  · simp [getBootcampsInRadius, radiusOf, h]
  · apply div_neg_of_neg_of_pos
    · exact_mod_cast hn
    · norm_num
  · simp [getBootcampsInRadius, radiusOf, h]

/-- Witness for the amended C5 at distance `"-100"`. -/
theorem c5_no_distance_validation_witness :
    jsParseInt "-100" = some (-100) ∧ ((-100 : Int) < 0)
    ∧ ((getBootcampsInRadius (some ⟨0, 0⟩) (fun _ => []) "-100").1 =
        some { lng := 0, lat := 0, radius := some (((-100 : Int) : ℚ) / 3963) }
      ∧ (((-100 : Int) : ℚ) / 3963 < 0)
      ∧ (getBootcampsInRadius (some ⟨0, 0⟩) (fun _ => []) "-100").2 =
        [.ok 200 (.bootcampList 0 [])]) :=
  ⟨by decide, by decide,
    c5_no_distance_validation ⟨0, 0⟩ (fun _ => []) "-100" (-100)
      (by decide) (by decide)⟩

/-- Counterexample to C6: two ownership denials do not identify the denied
action. Denying a course DELETE produces the reason "... is not authorized to
update course ...", and denying a photo UPLOAD produces the update-bootcamp
wording "... is not authorized to upadte this bootcamp". -/
theorem c6_action_mismatch_counterexample :
    deleteCourse "C1" ⟨"u9", "user"⟩ ⟨[], [⟨"C1", "u2", "B1"⟩]⟩ =
      ([.invalidCredential "User C1 is not authorized to update course C1"],
        ⟨[], [⟨"C1", "u2", "B1"⟩]⟩)
    ∧ bootcampPhotoUpload "B1" ⟨"u9", "user"⟩ none 0 true
        ⟨[⟨"B1", "u1", none⟩], []⟩ =
      ([.invalidCredential "User B1 is not authorized to upadte this bootcamp"],
        ⟨[⟨"B1", "u1", none⟩], []⟩) := by decide

/-- Claim C6 (amended): every ownership denial carries an InvalidCredential
reason whose text contains the id of the fetched resource together with a
fixed action phrase, but the phrase is not always the denied action: the
bootcamp update and delete denials name their actions (update with the
source's "upadte" typo), the photo-upload denial reuses the update-bootcamp
wording, `addCourse` names its action with the bootcamp id closing the
message, and the course update AND delete denials both use the
"update course" wording followed by the course id. -/
theorem c6_denial_reason (rid : String) (u : Principal)
    (upd : BootcampDoc → BootcampDoc) (cupd : CourseDoc → CourseDoc)
    (files : Option UploadedFile) (maxSize : Nat) (mvOk : Bool)
    (paramsId : Option String) (body : CourseDoc)
    (s : Store) (b : BootcampDoc) (c : CourseDoc)
    (hb : s.findBootcamp rid = some b) (hc : s.findCourse rid = some c)
    (hdB : ¬ (u.role = "admin" ∨ b.user = u.id))
    (hdC : ¬ (u.role = "admin" ∨ c.user = u.id)) :
    (∃ pre, updateBootcamp rid u upd s =
      ([.invalidCredential
          (pre ++ (rid ++ " is not authorized to upadte this bootcamp"))], s))
    ∧ (∃ pre, deleteBootcamp rid u s =
      ([.invalidCredential
          (pre ++ (rid ++ " is not authorized to delete this bootcamp"))], s))
    ∧ (∃ pre, bootcampPhotoUpload rid u files maxSize mvOk s =
      ([.invalidCredential
          (pre ++ (rid ++ " is not authorized to upadte this bootcamp"))], s))
    ∧ (∃ pre, addCourse rid paramsId u body s =
        ([.invalidCredential (pre ++ b.id)], s)
      ∧ pre = "User " ++
          (jsTpl paramsId ++ " is not authorized to add a course to bootcamp "))
    ∧ (∃ pre, updateCourse rid u cupd s =
      ([.invalidCredential
          (pre ++ (rid ++ (" is not authorized to update course " ++ c.id)))], s))
    ∧ (∃ pre, deleteCourse rid u s =
      ([.invalidCredential
          (pre ++ (rid ++ (" is not authorized to update course " ++ c.id)))], s)) := by
  push_neg at hdB hdC
  refine ⟨⟨"User ", ?_⟩, ⟨"User ", ?_⟩, ⟨"User ", ?_⟩,
    ⟨"User " ++ (jsTpl paramsId ++ " is not authorized to add a course to bootcamp "),
      ?_, rfl⟩, ⟨"User ", ?_⟩, ⟨"User ", ?_⟩⟩
  · simp [updateBootcamp, hb, hdB.1, hdB.2, Ne.symm, String.append_assoc]
  · simp [deleteBootcamp, hb, hdB.1, hdB.2, Ne.symm, String.append_assoc]
  · simp [bootcampPhotoUpload, hb, hdB.1, hdB.2, Ne.symm, String.append_assoc]
  · simp [addCourse, hb, hdB.1, hdB.2, Ne.symm, jsTpl, String.append_assoc]
  · simp [updateCourse, hc, hdC.1, hdC.2, Ne.symm, jsTpl, String.append_assoc]
  · simp [deleteCourse, hc, hdC.1, hdC.2, Ne.symm, jsTpl, String.append_assoc]

/-- Witness for C6 with bootcamp and course both of id `B1`, owners `u1` and
`u2`, and the non-owning `user`-role principal `u9`. -/
theorem c6_denial_reason_witness :
    Store.findBootcamp ⟨[⟨"B1", "u1", none⟩], [⟨"B1", "u2", "B0"⟩]⟩ "B1" =
        some ⟨"B1", "u1", none⟩
    ∧ (∃ pre, updateBootcamp "B1" ⟨"u9", "user"⟩ (fun b => b)
        ⟨[⟨"B1", "u1", none⟩], [⟨"B1", "u2", "B0"⟩]⟩ =
      ([.invalidCredential
          (pre ++ ("B1" ++ " is not authorized to upadte this bootcamp"))],
        ⟨[⟨"B1", "u1", none⟩], [⟨"B1", "u2", "B0"⟩]⟩)) :=
  ⟨by decide,
    (c6_denial_reason "B1" ⟨"u9", "user"⟩ (fun b => b) (fun c => c)
      none 0 true none ⟨"C9", "x", "y"⟩
      ⟨[⟨"B1", "u1", none⟩], [⟨"B1", "u2", "B0"⟩]⟩
      ⟨"B1", "u1", none⟩ ⟨"B1", "u2", "B0"⟩
      (by decide) (by decide) (by decide) (by decide)).1⟩

/-- Finding a document after a photo-field update: the transformer preserves
ids, so lookup commutes with the update. -/
theorem findBootcamp_updateBootcampDoc (s : Store) (i : String) (p : Option String) :
    (s.updateBootcampDoc i (fun d => { d with photo := p })).findBootcamp i =
      (s.findBootcamp i).map (fun d => { d with photo := p }) := by
  simp only [Store.updateBootcampDoc, Store.findBootcamp]
  induction s.bootcamps with
  | nil => simp
  | cons hd tl ih =>
    by_cases h : hd.id = i
    · simp [List.find?_cons, h]
    · simp [List.find?_cons, h, ih]

/-- The accept path of the photo upload: owner or admin, image mimetype,
size within bounds, successful move. -/
theorem photoUpload_accept (rid : String) (u : Principal) (f : UploadedFile)
    (maxSize : Nat) (s : Store) (b : BootcampDoc)
    (hb : s.findBootcamp rid = some b)
    (hauth : u.role = "admin" ∨ b.user = u.id)
    (hpre : strStartsWith f.mimetype "image" = true)
    (hsz : f.size ≤ maxSize) :
    bootcampPhotoUpload rid u (some f) maxSize true s =
      ([.ok 200 (.name ("photo_" ++ b.id ++ extOf f.name))],
        s.updateBootcampDoc rid
          (fun d => { d with photo := some ("photo_" ++ b.id ++ extOf f.name) })) := by
  have hgate : ¬ (b.user ≠ u.id ∧ u.role ≠ "admin") := by tauto
  simp [bootcampPhotoUpload, hb, hgate, photoUploadChecked, checkUpload, hpre,
    Nat.not_lt.mpr hsz]

/-- Claim C7: on an accepted upload for bootcamp `rid`, the assigned file name is
`photo_` + `rid` + the original extension, the document's photo field is set
to exactly that name, and a second accepted upload to the same id assigns a
name with the same stem (equal whenever the extensions agree) and overwrites
the photo field. -/
theorem c7_photo_naming (rid : String) (u : Principal) (f : UploadedFile)
    (maxSize : Nat) (s : Store) (b : BootcampDoc)
    (hb : s.findBootcamp rid = some b)
    (hauth : u.role = "admin" ∨ b.user = u.id)
    (hpre : strStartsWith f.mimetype "image" = true)
    (hsz : f.size ≤ maxSize) :
    b.id = rid
    ∧ bootcampPhotoUpload rid u (some f) maxSize true s =
      ([.ok 200 (.name ("photo_" ++ rid ++ extOf f.name))],
        s.updateBootcampDoc rid
          (fun d => { d with photo := some ("photo_" ++ rid ++ extOf f.name) }))
    ∧ (s.updateBootcampDoc rid
        (fun d => { d with photo := some ("photo_" ++ rid ++ extOf f.name) })).findBootcamp
          rid =
      some { b with photo := some ("photo_" ++ rid ++ extOf f.name) }
    ∧ (∀ g : UploadedFile, strStartsWith g.mimetype "image" = true →
        g.size ≤ maxSize →
        bootcampPhotoUpload rid u (some g) maxSize true
          (s.updateBootcampDoc rid
            (fun d => { d with photo := some ("photo_" ++ rid ++ extOf f.name) })) =
          ([.ok 200 (.name ("photo_" ++ rid ++ extOf g.name))],
            (s.updateBootcampDoc rid
              (fun d => { d with photo := some ("photo_" ++ rid ++ extOf f.name) })).updateBootcampDoc
                rid
                (fun d => { d with photo := some ("photo_" ++ rid ++ extOf g.name) }))) := by
  have hid : b.id = rid := by
    have := List.find?_some hb
    exact of_decide_eq_true this
  have hmain := photoUpload_accept rid u f maxSize s b hb hauth hpre hsz
  rw [hid] at hmain
  have hfind : (s.updateBootcampDoc rid
      (fun d => { d with photo := some ("photo_" ++ rid ++ extOf f.name) })).findBootcamp
        rid =
      some { b with photo := some ("photo_" ++ rid ++ extOf f.name) } := by
    rw [findBootcamp_updateBootcampDoc, hb]
    rfl
  refine ⟨hid, hmain, hfind, ?_⟩
  intro g hgpre hgsz
  have h2 := photoUpload_accept rid u g maxSize
    (s.updateBootcampDoc rid
      (fun d => { d with photo := some ("photo_" ++ rid ++ extOf f.name) }))
    { b with photo := some ("photo_" ++ rid ++ extOf f.name) }
    hfind (by simpa using hauth) hgpre hgsz
  simpa [hid] using h2

/-- Witness for C7: uploading `pic.jpg` to bootcamp `B1` names the file
`photo_B1.jpg` and stores that name in the document. -/
theorem c7_photo_naming_witness :
    Store.findBootcamp ⟨[⟨"B1", "u1", none⟩], []⟩ "B1" = some ⟨"B1", "u1", none⟩
    ∧ strStartsWith "image/jpeg" "image" = true
    ∧ bootcampPhotoUpload "B1" ⟨"u1", "publisher"⟩
        (some ⟨"pic.jpg", "image/jpeg", 7⟩) 1000 true
        ⟨[⟨"B1", "u1", none⟩], []⟩ =
      ([.ok 200 (.name ("photo_" ++ "B1" ++ extOf "pic.jpg"))],
        Store.updateBootcampDoc ⟨[⟨"B1", "u1", none⟩], []⟩ "B1"
          (fun d => { d with photo := some ("photo_" ++ "B1" ++ extOf "pic.jpg") })) :=
  ⟨by decide, by decide,
    (c7_photo_naming "B1" ⟨"u1", "publisher"⟩ ⟨"pic.jpg", "image/jpeg", 7⟩ 1000
      ⟨[⟨"B1", "u1", none⟩], []⟩ ⟨"B1", "u1", none⟩
      (by decide) (Or.inr (by decide)) (by decide) (by decide)).2.1⟩

/-- Claim C8: the Pagination Executor returns at most `limit` items, and the
`previous` descriptor is present iff `page > 1` while `next` is present iff
`page * limit` is below the total matching count. -/
theorem c8_pagination {α : Type} (page limit : Nat) (filt : α → Bool)
    (coll : List α) :
    (executeQuery page limit filt coll).items.length ≤ limit
    ∧ ((executeQuery page limit filt coll).previous.isSome ↔ 1 < page)
    ∧ ((executeQuery page limit filt coll).next.isSome ↔
        page * limit < (coll.filter filt).length) := by
  refine ⟨?_, ?_, ?_⟩
  · simp [executeQuery, List.length_take]
  · simp only [executeQuery]
    split <;> simp_all
  · simp only [executeQuery]
    split <;> simp_all

/-- Claim C9: requesting a single course whose id is absent emits the NotFound
error and, because that branch does not `return`, still sends a 200 success
response whose data is the null course. -/
theorem c9_getcourse_notfound_still_200 (cid : String) (s : Store)
    (h : s.findCourse cid = none) :
    getCourse cid s = [.notFound (some cid), .ok 200 (.courseOpt none)] := by
  simp [getCourse, h]

/-- Witness for C9 on the empty store. -/
theorem c9_getcourse_notfound_still_200_witness :
    Store.findCourse ⟨[], []⟩ "C1" = none
    ∧ getCourse "C1" ⟨[], []⟩ =
      [.notFound (some "C1"), .ok 200 (.courseOpt none)] :=
  ⟨by decide, c9_getcourse_notfound_still_200 "C1" ⟨[], []⟩ (by decide)⟩

/-- Claim C10: `addCourse` with a bootcamp id absent from the store emits NotFound
without terminating; an admin principal still gets the course created
referencing the nonexistent bootcamp (which remains absent afterwards), and a
non-admin principal gets the ownership denial in addition to the NotFound. -/
theorem c10_addcourse_missing_bootcamp (bid : String) (paramsId : Option String)
    (u : Principal) (body : CourseDoc) (s : Store)
    (h : s.findBootcamp bid = none) :
    (u.role = "admin" →
      addCourse bid paramsId u body s =
        ([.notFound (some bid),
          .ok 200 (.course { body with bootcamp := bid, user := u.id })],
          s.createCourse { body with bootcamp := bid, user := u.id })
      ∧ (s.createCourse
          { body with bootcamp := bid, user := u.id }).findBootcamp bid = none
      ∧ { body with bootcamp := bid, user := u.id } ∈
          (s.createCourse { body with bootcamp := bid, user := u.id }).courses)
    ∧ (u.role ≠ "admin" →
      addCourse bid paramsId u body s =
        ([.notFound (some bid),
          .invalidCredential ("User " ++ jsTpl paramsId ++
            " is not authorized to add a course to bootcamp " ++ "undefined")],
          s)) := by
  constructor
  · intro hadm
    refine ⟨?_, ?_, ?_⟩
    · simp [addCourse, h, hadm]
    · simpa [Store.createCourse, Store.findBootcamp] using h
    · simp [Store.createCourse]
  · intro hadm
    simp [addCourse, h, hadm, jsTpl]

/-- Witness for C10: an admin adds a course to the nonexistent bootcamp `BX`
of the empty store; the course is created and `BX` is still absent. -/
theorem c10_addcourse_missing_bootcamp_witness :
    Store.findBootcamp ⟨[], []⟩ "BX" = none
    ∧ (addCourse "BX" none ⟨"u1", "admin"⟩ ⟨"C1", "x", "y"⟩ ⟨[], []⟩ =
        ([.notFound (some "BX"), .ok 200 (.course ⟨"C1", "u1", "BX"⟩)],
          Store.createCourse ⟨[], []⟩ ⟨"C1", "u1", "BX"⟩)
      ∧ (Store.createCourse ⟨[], []⟩ ⟨"C1", "u1", "BX"⟩).findBootcamp "BX" = none
      ∧ (⟨"C1", "u1", "BX"⟩ : CourseDoc) ∈
          (Store.createCourse ⟨[], []⟩ ⟨"C1", "u1", "BX"⟩).courses) :=
  ⟨by decide,
    (c10_addcourse_missing_bootcamp "BX" none ⟨"u1", "admin"⟩ ⟨"C1", "x", "y"⟩
      ⟨[], []⟩ (by decide)).1 rfl⟩

/-- Witness for the amended C3: an `image/png` file of exactly the maximum
size is accepted. -/
theorem c3_upload_validation_witness :
    checkUpload (some ⟨"a", "image/png", 10⟩) 10 = .accept ⟨"a", "image/png", 10⟩ :=
  (c3_upload_validation (some ⟨"a", "image/png", 10⟩) 10).2.2.1 "a" 10

/-- Witness for C8, the spec's scenario: limit 2, page 2 over five matching
items returns at most two items with both adjacent descriptors present. -/
theorem c8_pagination_witness :
    (executeQuery 2 2 (fun n => decide (1000 ≤ n))
      [2000, 1500, 1200, 1100, 1000, 800]).items.length ≤ 2
    ∧ ((executeQuery 2 2 (fun n => decide (1000 ≤ n))
        [2000, 1500, 1200, 1100, 1000, 800]).previous.isSome ↔ 1 < 2)
    ∧ ((executeQuery 2 2 (fun n => decide (1000 ≤ n))
        [2000, 1500, 1200, 1100, 1000, 800]).next.isSome ↔
        2 * 2 < ([2000, 1500, 1200, 1100, 1000, 800].filter
          (fun n => decide (1000 ≤ n))).length) :=
  c8_pagination 2 2 (fun n => decide (1000 ≤ n)) [2000, 1500, 1200, 1100, 1000, 800]
